import Mathlib

/- Verification of the Nidaan patient intake client's visit submission
pipeline, embedded from apps/web/app/patient/page.tsx: the status polling
engine (pollProcessingStatus, lines 189-228), the submission orchestrator
(uploadAndProcess, lines 230-262), and the audio level meter
(startAudioVisualization, lines 79-98). The sibling page of the repository
(src/unnamed/part_000) implements the same polling and upload control flow
with different notification strings; the properties below concern the
shared control flow and are stated over the page.tsx strings. -/

/-- Result of one status query against the backend: a successful response
carrying a status string, or a transport error (a rejected promise from
audioAPI.getProcessingStatus). -/
inductive QueryResult where
  | ok (s : String)
  | err
deriving DecidableEq

/-- Observable events of the polling loop: a status query for attempt i, a
processing-stage or status notification to the UI, the 2-second
inter-poll wait, and the console log emitted by the catch handler. -/
inductive PollEvent where
  | query (i : Nat)
  | stage (msg : String)
  | wait
  | logError
deriving DecidableEq

/-- Terminal outcome of the polling loop. -/
inductive PollOutcome where
  | completed
  | failed
  | timedOut
deriving DecidableEq

/-- Stage notification emitted for a successful non-terminal status, per
the switch in pollProcessingStatus: TRANSCRIBING and ANALYZING each set a
stage message; any other non-terminal value sets none (the switch has no
default case). -/
def nonTermEvents (s : String) : List PollEvent :=
  if s = "TRANSCRIBING" then [PollEvent.stage "Transcribing your voice..."]
  else if s = "ANALYZING" then [PollEvent.stage "AI analyzing symptoms..."]
  else []

/-- The for-loop of pollProcessingStatus (page.tsx lines 190-224): fuel is
the number of remaining iterations (retries - i), i the attempt index.
Each iteration queries the status source. COMPLETED returns success
(notifying Complete!); FAILED returns failure (notifying the failure
message); a thrown transport error is caught and logged and the loop
continues immediately, skipping the wait (the wait sits inside the try
block after the switch); any other result waits 2 seconds and continues.
Exhausting the loop emits the timeout message and yields timedOut
(lines 226-227). -/
def pollLoop (src : Nat → QueryResult) : Nat → Nat → List PollEvent × PollOutcome
  | _, 0 => ([PollEvent.stage "Processing taking longer than expected."], PollOutcome.timedOut)
  | i, fuel+1 =>
    match src i with
    | QueryResult.err =>
      (PollEvent.query i :: PollEvent.logError :: (pollLoop src (i+1) fuel).1,
        (pollLoop src (i+1) fuel).2)
    | QueryResult.ok s =>
      if s = "COMPLETED" then
        ([PollEvent.query i, PollEvent.stage "Complete!"], PollOutcome.completed)
      else if s = "FAILED" then
        ([PollEvent.query i, PollEvent.stage "Processing failed. Please try again."],
          PollOutcome.failed)
      else
        (PollEvent.query i :: (nonTermEvents s ++ PollEvent.wait :: (pollLoop src (i+1) fuel).1),
          (pollLoop src (i+1) fuel).2)

/-- Default value of the retries parameter of pollProcessingStatus. -/
def defaultRetries : Nat := 30

/-- pollProcessingStatus(visitId, retries = 30): runs the loop from attempt
index 0, yielding the event trace and the terminal outcome. -/
def pollProcessingStatus (src : Nat → QueryResult) (retries : Nat) :
    List PollEvent × PollOutcome :=
  pollLoop src 0 retries

def isQuery : PollEvent → Bool
  | PollEvent.query _ => true
  | _ => false

def isWait : PollEvent → Bool
  | PollEvent.wait => true
  | _ => false

/-- Number of status queries issued in a trace. -/
def countQueries (evs : List PollEvent) : Nat := evs.countP isQuery

/-- Number of 2-second inter-poll waits performed in a trace. -/
def countWaits (evs : List PollEvent) : Nat := evs.countP isWait

/-- A query result is terminal when it is a successful response reading
COMPLETED or FAILED; transport errors and all other values are
non-terminal for the loop. -/
def isTerminalRes : QueryResult → Bool
  | QueryResult.ok s => s == "COMPLETED" || s == "FAILED"
  | QueryResult.err => false

/-- A query result that succeeded and is non-terminal: exactly the results
after which the loop performs the 2-second wait. -/
def isNonTermOk : QueryResult → Bool
  | QueryResult.ok s => !(s == "COMPLETED" || s == "FAILED")
  | QueryResult.err => false

/-- Predicate on trace events: a status query whose response was successful
and non-terminal. -/
def isNonTermOkQuery (src : Nat → QueryResult) : PollEvent → Bool
  | PollEvent.query j => isNonTermOk (src j)
  | _ => false

/-- The authenticated user as read by uploadAndProcess through
user?.user_id and user?.clinic_id. -/
structure User where
  user_id : String
  clinic_id : String
deriving DecidableEq

/-- JS x || dflt over an optional-chain result: null/undefined and the
empty string are falsy and fall back to the default. -/
def orFalsy (s : Option String) (d : String) : String :=
  match s with
  | some v => if v = "" then d else v
  | none => d

/-- Response of audioAPI.getUploadUrl: a presigned URL and the storage key. -/
structure UploadData where
  upload_url : String
  audio_s3_key : String
deriving DecidableEq

/-- The message shown by the catch handler of uploadAndProcess:
error.message || 'Upload failed' (a missing or empty message is falsy). -/
def errMsg (m : Option String) : String := orFalsy m "Upload failed"

/-- Network calls issued by uploadAndProcess, with the payloads the source
passes to each collaborator. -/
inductive NetCall where
  | createVisit (patient_id clinic_id language_code : String) (audio_duration_seconds : Nat)
  | getUploadUrl (visit_id : String) (ext : String)
  | uploadToS3 (upload_url : String) (blobSize : Nat)
  | processAudio (visit_id : String) (audio_s3_key : String)
deriving DecidableEq

/-- Terminal result of uploadAndProcess as observed by the UI. noop is the
silent early return taken when audioBlob is null: no state is touched and
no message is shown. -/
inductive Outcome where
  | noop
  | completed
  | failed (statusMessage : String)
  | timedOut
deriving DecidableEq

/-- How the polling outcome surfaces as the submission outcome: FAILED sets
the failure status message, COMPLETED and exhaustion keep their own
terminal states. -/
def toOutcome : PollOutcome → Outcome
  | PollOutcome.completed => Outcome.completed
  | PollOutcome.failed => Outcome.failed "Processing failed. Please try again."
  | PollOutcome.timedOut => Outcome.timedOut

/-- Component state read by uploadAndProcess plus the scripted result of
each collaborator call: audioBlob is the recording (none = null, some n =
a blob of n bytes), and pollSrc scripts the status source per attempt. -/
structure Env where
  user : Option User
  audioBlob : Option Nat
  language : String
  duration : Nat
  createVisitRes : Except (Option String) String
  getUploadUrlRes : Except (Option String) UploadData
  uploadToS3Res : Except (Option String) Unit
  processAudioRes : Except (Option String) Unit
  pollSrc : Nat → QueryResult

/-- Everything observable from one run of uploadAndProcess: the
collaborator calls issued in order, the polling trace, the
processing-stage notifications emitted by the upload path itself, and the
terminal outcome. -/
structure SubmitResult where
  calls : List NetCall
  pollEvents : List PollEvent
  stages : List String
  outcome : Outcome
deriving DecidableEq

/-- patient_id field of the visit payload: user?.user_id || 'DEMO_PATIENT'. -/
def patientIdOf (env : Env) : String :=
  orFalsy (env.user.map User.user_id) "DEMO_PATIENT"

/-- clinic_id field of the visit payload: user?.clinic_id || 'CLINIC_DEMO'. -/
def clinicIdOf (env : Env) : String :=
  orFalsy (env.user.map User.clinic_id) "CLINIC_DEMO"

/-- The createVisit call with the visitData payload built at page.tsx lines
237-242; language_code is passed through without any validation. -/
def visitPayload (env : Env) : NetCall :=
  NetCall.createVisit (patientIdOf env) (clinicIdOf env) env.language env.duration

/-- uploadAndProcess (page.tsx lines 230-262): returns silently when
audioBlob is null; otherwise runs createVisit, getUploadUrl(visit, webm),
uploadToS3, processAudio in sequence inside one try block whose catch
resolves any thrown collaborator error to a failed outcome carrying
error.message || 'Upload failed'; on full success it hands off to
pollProcessingStatus with the default 30 retries, whose outcome becomes
the submission outcome. Stage notifications are emitted before the calls
exactly as in the source. -/
def uploadAndProcess (env : Env) : SubmitResult :=
  match env.audioBlob with
  | none => ⟨[], [], [], Outcome.noop⟩
  | some blobSize =>
    match env.createVisitRes with
    | Except.error m =>
        ⟨[visitPayload env], [], ["Creating visit record..."], Outcome.failed (errMsg m)⟩
    | Except.ok visit_id =>
      match env.getUploadUrlRes with
      | Except.error m =>
          ⟨[visitPayload env, NetCall.getUploadUrl visit_id "webm"], [],
            ["Creating visit record...", "Uploading audio..."], Outcome.failed (errMsg m)⟩
      | Except.ok ud =>
        match env.uploadToS3Res with
        | Except.error m =>
            ⟨[visitPayload env, NetCall.getUploadUrl visit_id "webm",
                NetCall.uploadToS3 ud.upload_url blobSize], [],
              ["Creating visit record...", "Uploading audio..."], Outcome.failed (errMsg m)⟩
        | Except.ok _ =>
          match env.processAudioRes with
          | Except.error m =>
              ⟨[visitPayload env, NetCall.getUploadUrl visit_id "webm",
                  NetCall.uploadToS3 ud.upload_url blobSize,
                  NetCall.processAudio visit_id ud.audio_s3_key], [],
                ["Creating visit record...", "Uploading audio...", "Starting AI analysis..."],
                Outcome.failed (errMsg m)⟩
          | Except.ok _ =>
              ⟨[visitPayload env, NetCall.getUploadUrl visit_id "webm",
                  NetCall.uploadToS3 ud.upload_url blobSize,
                  NetCall.processAudio visit_id ud.audio_s3_key],
                (pollProcessingStatus env.pollSrc defaultRetries).1,
                ["Creating visit record...", "Uploading audio...", "Starting AI analysis..."],
                toOutcome (pollProcessingStatus env.pollSrc defaultRetries).2⟩

/-- A submission with an empty recording (a present blob of zero bytes) and
the unsupported languageCode fr-FR; every collaborator succeeds and the
first poll already reads COMPLETED. -/
def envC1 : Env :=
  ⟨none, some 0, "fr-FR", 0, Except.ok "V1", Except.ok ⟨"u", "k"⟩, Except.ok (),
    Except.ok (), fun _ => QueryResult.ok "COMPLETED"⟩

/-- A submission whose visit creation and upload-target request succeed but
whose object-store byte transfer rejects with a message. -/
def envC7 : Env :=
  ⟨some ⟨"P1", "CL1"⟩, some 5, "hi-IN", 7, Except.ok "V1", Except.ok ⟨"u", "k"⟩,
    Except.error (some "S3 write failed"), Except.ok (), fun _ => QueryResult.ok "COMPLETED"⟩

/-- A session with no recording present: audioBlob is null. -/
def envC10 : Env :=
  ⟨some ⟨"P1", "CL1"⟩, none, "hi-IN", 0, Except.ok "V1", Except.ok ⟨"u", "k"⟩,
    Except.ok (), Except.ok (), fun _ => QueryResult.err⟩

/-- Status source scripting TRANSCRIBING, ANALYZING, COMPLETED on the first
three attempts. -/
def srcC3 : Nat → QueryResult := fun i =>
  if i = 0 then QueryResult.ok "TRANSCRIBING"
  else if i = 1 then QueryResult.ok "ANALYZING"
  else QueryResult.ok "COMPLETED"

/-- Status source whose first attempt rejects (transport error) and whose
second attempt reads COMPLETED. -/
def srcC4 : Nat → QueryResult := fun i =>
  if i = 0 then QueryResult.err else QueryResult.ok "COMPLETED"

/-- Status source that always returns the unrecognized status PENDING. -/
def srcPending : Nat → QueryResult := fun _ => QueryResult.ok "PENDING"

/-- frequencyBinCount of the analyser node: fftSize is set to 256, so the
bin set has the fixed size 128. -/
def frequencyBinCount : Nat := 128

/-- Arithmetic mean of the frequency-bin magnitudes:
dataArray.reduce((a, b) => a + b) / dataArray.length. -/
def arithMean (l : List ℚ) : ℚ := l.sum / l.length

/-- The loudness value published each sample cycle (page.tsx lines 91-92):
Math.min(100, average * 1.5). -/
def updateLevel (l : List ℚ) : ℚ := min 100 (arithMean l * 1.5)

/-- Specification-side value for claim C8, following the spec words: the
arithmetic mean scaled by the 1.5 gain and clamped to the closed interval
[0, 100]. -/
def specLevelValue (l : List ℚ) : ℚ := min 100 (max 0 (arithMean l * 1.5))

theorem countP_nonTermEvents (p : PollEvent → Bool)
    (hp : ∀ m, p (PollEvent.stage m) = false) (s : String) :
    (nonTermEvents s).countP p = 0 := by
  unfold nonTermEvents
  split
  · simp [hp]
  · split
    · simp [hp]
    · simp

theorem pollLoop_nonTerminal (src : Nat → QueryResult)
    (h : ∀ j, isTerminalRes (src j) = false) :
    ∀ fuel i, countQueries (pollLoop src i fuel).1 = fuel ∧
      (pollLoop src i fuel).2 = PollOutcome.timedOut := by
  intro fuel
  induction fuel with
  | zero =>
    intro i
    simp [pollLoop, countQueries, isQuery]
  | succ n ih =>
    intro i
    have hi := h i
    cases hsrc : src i with
    | err =>
      obtain ⟨ih1, ih2⟩ := ih (i+1)
      simp only [countQueries] at ih1
      constructor
      · simp [pollLoop, hsrc, countQueries, List.countP_cons, isQuery]
        omega
      · simp only [pollLoop, hsrc]
        exact ih2
    | ok s =>
      rw [hsrc] at hi
      simp only [isTerminalRes, Bool.or_eq_false_iff, beq_eq_false_iff_ne, ne_eq] at hi
      obtain ⟨ih1, ih2⟩ := ih (i+1)
      simp only [countQueries] at ih1
      constructor
      · simp [pollLoop, hsrc, if_neg hi.1, if_neg hi.2, countQueries, List.countP_cons,
          List.countP_append, isQuery, countP_nonTermEvents isQuery (fun _ => rfl)]
        omega
      · simp only [pollLoop, hsrc, if_neg hi.1, if_neg hi.2]
        exact ih2

theorem pollLoop_ends_with_stage (src : Nat → QueryResult) :
    ∀ fuel i, ∃ l m, (pollLoop src i fuel).1 = l ++ [PollEvent.stage m] := by
  intro fuel
  induction fuel with
  | zero =>
    intro i
    exact ⟨[], "Processing taking longer than expected.", rfl⟩
  | succ n ih =>
    intro i
    cases hsrc : src i with
    | err =>
      obtain ⟨l, m, hl⟩ := ih (i+1)
      refine ⟨PollEvent.query i :: PollEvent.logError :: l, m, ?_⟩
      simp [pollLoop, hsrc, hl]
    | ok s =>
      by_cases hC : s = "COMPLETED"
      · exact ⟨[PollEvent.query i], "Complete!", by simp [pollLoop, hsrc, hC]⟩
      · by_cases hF : s = "FAILED"
        · exact ⟨[PollEvent.query i], "Processing failed. Please try again.",
            by simp [pollLoop, hsrc, hC, hF]⟩
        · obtain ⟨l, m, hl⟩ := ih (i+1)
          refine ⟨PollEvent.query i :: (nonTermEvents s ++ PollEvent.wait :: l), m, ?_⟩
          simp [pollLoop, hsrc, hC, hF, hl]

/-- Claim C2: when the status source never returns a terminal value
(transport errors and unrecognized statuses counting as non-terminal), the
polling loop issues exactly retries status queries (default 30) and then
yields the distinct terminal outcome timedOut, never failed. -/
theorem claim_C2_poll_exhaustion_times_out (src : Nat → QueryResult) (retries : Nat)
    (h : ∀ j, isTerminalRes (src j) = false) :
    countQueries (pollProcessingStatus src retries).1 = retries ∧
    (pollProcessingStatus src retries).2 = PollOutcome.timedOut ∧
    (pollProcessingStatus src retries).2 ≠ PollOutcome.failed := by
  have hp := pollLoop_nonTerminal src h retries 0
  have h2 : (pollProcessingStatus src retries).2 = PollOutcome.timedOut := hp.2
  refine ⟨hp.1, h2, ?_⟩
  rw [h2]
  intro hc
  exact PollOutcome.noConfusion hc

/-- Witness for C2 at the default attempt budget of 30 and a status source
that always answers with the successful non-terminal value PENDING. -/
theorem claim_C2_witness :
    countQueries (pollProcessingStatus srcPending defaultRetries).1 = defaultRetries ∧
    (pollProcessingStatus srcPending defaultRetries).2 = PollOutcome.timedOut ∧
    (pollProcessingStatus srcPending defaultRetries).2 ≠ PollOutcome.failed :=
  claim_C2_poll_exhaustion_times_out srcPending defaultRetries (fun _ => rfl)

/-- Claim C3: when every collaborator call succeeds and the status source
returns TRANSCRIBING, ANALYZING, COMPLETED on the first three attempts,
polling reaches completed after exactly 3 status queries and exactly 2
inter-poll waits (the COMPLETED attempt returns without a further wait). -/
theorem claim_C3_three_attempts_two_waits (src : Nat → QueryResult) (retries : Nat)
    (h0 : src 0 = QueryResult.ok "TRANSCRIBING")
    (h1 : src 1 = QueryResult.ok "ANALYZING")
    (h2 : src 2 = QueryResult.ok "COMPLETED")
    (hr : 3 ≤ retries) :
    countQueries (pollProcessingStatus src retries).1 = 3 ∧
    countWaits (pollProcessingStatus src retries).1 = 2 ∧
    (pollProcessingStatus src retries).2 = PollOutcome.completed := by
  obtain ⟨k, rfl⟩ : ∃ k, retries = k + 3 := ⟨retries - 3, by omega⟩
  simp [pollProcessingStatus, pollLoop, h0, h1, h2, nonTermEvents, countQueries, countWaits,
    isQuery, isWait, List.countP_cons, List.countP_append]

/-- Witness for C3 with the scripted three-status source and the default
attempt budget. -/
theorem claim_C3_witness :
    countQueries (pollProcessingStatus srcC3 defaultRetries).1 = 3 ∧
    countWaits (pollProcessingStatus srcC3 defaultRetries).1 = 2 ∧
    (pollProcessingStatus srcC3 defaultRetries).2 = PollOutcome.completed :=
  claim_C3_three_attempts_two_waits srcC3 defaultRetries rfl rfl rfl (by decide)

/-- Claim C4: a transport error on one poll attempt is swallowed: the loop
only logs it and proceeds to the next attempt, and a following successful
COMPLETED attempt still yields completed. The full trace shows the error
produced no notification and no propagation, only the console log. -/
theorem claim_C4_transport_error_swallowed (src : Nat → QueryResult) (i fuel : Nat)
    (h0 : src i = QueryResult.err)
    (h1 : src (i+1) = QueryResult.ok "COMPLETED")
    (hf : 2 ≤ fuel) :
    (pollLoop src i fuel).2 = PollOutcome.completed ∧
    (pollLoop src i fuel).1 =
      [PollEvent.query i, PollEvent.logError, PollEvent.query (i+1),
        PollEvent.stage "Complete!"] := by
  obtain ⟨k, rfl⟩ : ∃ k, fuel = k + 2 := ⟨fuel - 2, by omega⟩
  simp [pollLoop, h0, h1]

/-- Witness for C4: the full run (pollProcessingStatus is pollLoop from
attempt 0) with the scripted error-then-COMPLETED source. -/
theorem claim_C4_witness :
    (pollLoop srcC4 0 defaultRetries).2 = PollOutcome.completed ∧
    (pollLoop srcC4 0 defaultRetries).1 =
      [PollEvent.query 0, PollEvent.logError, PollEvent.query 1,
        PollEvent.stage "Complete!"] :=
  claim_C4_transport_error_swallowed srcC4 0 defaultRetries rfl rfl (by decide)

/-- Claim C6: a successful status outside TRANSCRIBING, ANALYZING,
COMPLETED, FAILED is treated as non-terminal: the attempt does not fail,
the loop performs the fixed wait and continues polling from the next
attempt (the rest of the run is exactly the loop restarted at the next
attempt index); this holds at every attempt of every run, since the run
from attempt i with fuel iterations left is pollLoop src i fuel. -/
theorem claim_C6_unrecognized_keeps_polling (src : Nat → QueryResult) (i fuel : Nat)
    (s : String)
    (h0 : src i = QueryResult.ok s)
    (hT : s ≠ "TRANSCRIBING") (hA : s ≠ "ANALYZING")
    (hC : s ≠ "COMPLETED") (hF : s ≠ "FAILED")
    (hf : 1 ≤ fuel) :
    pollLoop src i fuel =
      (PollEvent.query i :: PollEvent.wait :: (pollLoop src (i+1) (fuel - 1)).1,
        (pollLoop src (i+1) (fuel - 1)).2) := by
  obtain ⟨k, rfl⟩ : ∃ k, fuel = k + 1 := ⟨fuel - 1, by omega⟩
  simp [pollLoop, h0, nonTermEvents, if_neg hT, if_neg hA, if_neg hC, if_neg hF]

/-- Witness for C6: the full default run (pollProcessingStatus is pollLoop
from attempt 0) with the unrecognized status PENDING on every attempt. -/
theorem claim_C6_witness :
    pollLoop srcPending 0 defaultRetries =
      (PollEvent.query 0 :: PollEvent.wait :: (pollLoop srcPending 1 (defaultRetries - 1)).1,
        (pollLoop srcPending 1 (defaultRetries - 1)).2) :=
  claim_C6_unrecognized_keeps_polling srcPending 0 defaultRetries "PENDING" rfl
    (by decide) (by decide) (by decide) (by decide) (by decide)

/-- Claim C9 (implicit): the 2-second wait is performed exactly after the
attempts whose query succeeded with a non-terminal status; an attempt
whose query threw proceeds to the next attempt with no wait. Hence in
every run the number of waits equals the number of successful non-terminal
attempts recorded in the trace, not the number of attempts. -/
theorem claim_C9_waits_match_successful_nonterminal (src : Nat → QueryResult)
    (fuel i : Nat) :
    countWaits (pollLoop src i fuel).1 =
      ((pollLoop src i fuel).1).countP (isNonTermOkQuery src) := by
  induction fuel generalizing i with
  | zero =>
    simp [pollLoop, countWaits, isWait, isNonTermOkQuery]
  | succ n ih =>
    cases hsrc : src i with
    | err =>
      have := ih (i+1)
      simp only [countWaits] at this
      simp [pollLoop, hsrc, countWaits, List.countP_cons, isWait, isNonTermOkQuery,
        isNonTermOk, this]
    | ok s =>
      by_cases hC : s = "COMPLETED"
      · simp [pollLoop, hsrc, hC, countWaits, List.countP_cons, isWait, isNonTermOkQuery,
          isNonTermOk]
      · by_cases hF : s = "FAILED"
        · simp [pollLoop, hsrc, hC, hF, countWaits, List.countP_cons, isWait,
            isNonTermOkQuery, isNonTermOk]
        · have := ih (i+1)
          simp only [countWaits] at this
          have hq : (nonTermEvents s).countP (isNonTermOkQuery src) = 0 :=
            countP_nonTermEvents _ (fun _ => rfl) s
          have hw : (nonTermEvents s).countP isWait = 0 :=
            countP_nonTermEvents _ (fun _ => rfl) s
          simp [pollLoop, hsrc, hC, hF, countWaits, List.countP_cons, List.countP_append,
            isWait, isNonTermOkQuery, isNonTermOk, this, hq, hw]

/-- Claim C5 counterexample: the claim asserts that a cancellation requested
during an inter-poll wait stops further status queries. The source has no
cancellation mechanism at all: pollProcessingStatus takes no abort signal,
checks no flag, and its interval promise is never cleared, so the run is
fully determined by the status source. In the run where the UI is torn
down during the first inter-poll wait (never-terminal source, default 30
attempts), the loop nevertheless issues 29 further status queries after
that wait. -/
theorem claim_C5_counterexample :
    (pollProcessingStatus srcPending defaultRetries).1.take 2 =
      [PollEvent.query 0, PollEvent.wait] ∧
    countQueries ((pollProcessingStatus srcPending defaultRetries).1.drop 2) = 29 := by
  decide

/-- Claim C5 amended: the polling loop is not cancellable. It exposes no
cancellation signal, so no run can be stopped at a wait: after every
inter-poll wait the trace always continues (with a further status query or
a further notification), and every run still ends by emitting a terminal
status notification regardless of UI teardown. -/
theorem claim_C5_amended_not_cancellable (src : Nat → QueryResult) (fuel i : Nat)
    (pre post : List PollEvent)
    (h : (pollLoop src i fuel).1 = pre ++ PollEvent.wait :: post) :
    post ≠ [] ∧ ∃ m, post.getLast? = some (PollEvent.stage m) := by
  obtain ⟨l, m, hl⟩ := pollLoop_ends_with_stage src fuel i
  rw [hl] at h
  rcases post.eq_nil_or_concat with hpost | ⟨post', a, rfl⟩
  · subst hpost
    have hgl := congrArg List.getLast? h
    rw [List.getLast?_concat] at hgl
    have : (pre ++ [PollEvent.wait]).getLast? = some PollEvent.wait :=
      List.getLast?_concat pre
    rw [this] at hgl
    exact absurd (Option.some.inj hgl) (fun hc => PollEvent.noConfusion hc)
  · simp only [List.concat_eq_append] at h ⊢
    have hsplit : pre ++ PollEvent.wait :: (post' ++ [a]) =
        (pre ++ PollEvent.wait :: post') ++ [a] := by
      simp
    rw [hsplit] at h
    have hgl := congrArg List.getLast? h
    rw [List.getLast?_concat, List.getLast?_concat] at hgl
    refine ⟨by simp, m, ?_⟩
    rw [List.getLast?_concat]
    rw [Option.some.inj hgl]

/-- Witness for the amended C5 on a concrete 2-attempt run with a
never-terminal source: after the first wait the trace continues with a
further query and ends in the timeout notification. -/
theorem claim_C5_witness :
    ([PollEvent.query 1, PollEvent.wait,
        PollEvent.stage "Processing taking longer than expected."] : List PollEvent) ≠ [] ∧
    ∃ m, ([PollEvent.query 1, PollEvent.wait,
        PollEvent.stage "Processing taking longer than expected."] : List PollEvent).getLast?
      = some (PollEvent.stage m) :=
  claim_C5_amended_not_cancellable srcPending 2 0 [PollEvent.query 0]
    [PollEvent.query 1, PollEvent.wait,
      PollEvent.stage "Processing taking longer than expected."] (by decide)

/-- Claim C1 counterexample: the claim asserts that an empty recording or an
unsupported languageCode makes submit yield failed with a validation error
and zero collaborator calls. uploadAndProcess performs no such validation:
with a present but zero-byte recording and the unsupported languageCode
fr-FR it proceeds through the whole pipeline, issues all four collaborator
calls plus a poll, and yields completed. -/
theorem claim_C1_counterexample :
    (uploadAndProcess envC1).outcome = Outcome.completed ∧
    (uploadAndProcess envC1).calls ≠ [] ∧
    countQueries (uploadAndProcess envC1).pollEvents ≠ 0 := by
  decide

/-- Claim C1 amended: submit validates neither the recording size nor the
languageCode. A null audio blob returns silently with nothing issued (see
C10); any present blob, even of zero bytes, and any languageCode,
supported or not, proceed straight to visit creation: the first
collaborator call is createVisit carrying the unvalidated language code,
and the call list is never empty. -/
theorem claim_C1_amended_no_validation (env : Env) (b : Nat)
    (hb : env.audioBlob = some b) :
    (uploadAndProcess env).calls.head? = some (visitPayload env) ∧
    (uploadAndProcess env).calls ≠ [] ∧
    (uploadAndProcess env).stages.head? = some "Creating visit record..." := by
  simp only [uploadAndProcess, hb]
  cases hcv : env.createVisitRes with
  | error m => simp
  | ok visit_id =>
    cases hup : env.getUploadUrlRes with
    | error m => simp
    | ok ud =>
      cases hs3 : env.uploadToS3Res with
      | error m => simp
      | ok u =>
        cases hpa : env.processAudioRes with
        | error m => simp
        | ok u2 => simp

/-- Witness for the amended C1 at the empty-recording, unsupported-language
environment. -/
theorem claim_C1_witness :
    (uploadAndProcess envC1).calls.head? = some (visitPayload envC1) ∧
    (uploadAndProcess envC1).calls ≠ [] ∧
    (uploadAndProcess envC1).stages.head? = some "Creating visit record..." :=
  claim_C1_amended_no_validation envC1 0 rfl

/-- Claim C7: when visit creation and the upload-target request succeed but
the object-store byte transfer rejects, the submission ends failed carrying
the transfer error message (error.message, with the Upload failed fallback
when the message is absent or empty), the processing trigger is never
called, and zero poll attempts are ever issued. -/
theorem claim_C7_transfer_failure_no_polls (env : Env) (b : Nat) (vid : String)
    (ud : UploadData) (m : Option String)
    (hb : env.audioBlob = some b)
    (hcv : env.createVisitRes = Except.ok vid)
    (hup : env.getUploadUrlRes = Except.ok ud)
    (hs3 : env.uploadToS3Res = Except.error m) :
    uploadAndProcess env =
      ⟨[visitPayload env, NetCall.getUploadUrl vid "webm",
          NetCall.uploadToS3 ud.upload_url b],
        [], ["Creating visit record...", "Uploading audio..."],
        Outcome.failed (errMsg m)⟩ := by
  simp only [uploadAndProcess, hb, hcv, hup, hs3]

/-- Witness for C7 at a concrete environment whose transfer rejects with
the message S3 write failed. -/
theorem claim_C7_witness :
    uploadAndProcess envC7 =
      ⟨[visitPayload envC7, NetCall.getUploadUrl "V1" "webm",
          NetCall.uploadToS3 "u" 5],
        [], ["Creating visit record...", "Uploading audio..."],
        Outcome.failed (errMsg (some "S3 write failed"))⟩ :=
  claim_C7_transfer_failure_no_polls envC7 5 "V1" ⟨"u", "k"⟩ (some "S3 write failed")
    rfl rfl rfl rfl

/-- Claim C10 (implicit): invoking uploadAndProcess with no recording
present (audioBlob null) returns immediately with no observable effect:
no collaborator call, no poll, no stage notification, and the noop
outcome, leaving all orchestrator state unchanged. -/
theorem claim_C10_null_blob_silent_return (env : Env)
    (hb : env.audioBlob = none) :
    uploadAndProcess env = ⟨[], [], [], Outcome.noop⟩ := by
  simp only [uploadAndProcess, hb]

/-- Witness for C10 at a concrete session with audioBlob null. -/
theorem claim_C10_witness :
    uploadAndProcess envC10 = ⟨[], [], [], Outcome.noop⟩ :=
  claim_C10_null_blob_silent_return envC10 rfl

/-- Claim C8: each sample cycle publishes min(100, mean * 1.5) over the
fixed set of 128 byte-valued frequency-bin magnitudes; because the
magnitudes are bytes (0 to 255), this equals the spec's description (mean
scaled by the 1.5 gain, clamped to the closed interval [0, 100]) and the
published value always lies in [0, 100]. -/
theorem claim_C8_level_meter_clamped (l : List ℚ)
    (hlen : l.length = frequencyBinCount)
    (hbound : ∀ x ∈ l, 0 ≤ x ∧ x ≤ 255) :
    updateLevel l = specLevelValue l ∧
    0 ≤ updateLevel l ∧ updateLevel l ≤ 100 := by
  have hsum : 0 ≤ l.sum := List.sum_nonneg (fun x hx => (hbound x hx).1)
  have hmean : (0:ℚ) ≤ arithMean l := by
    unfold arithMean
    exact div_nonneg hsum (by positivity)
  have hnn : (0:ℚ) ≤ arithMean l * 1.5 := by
    have h15 : (0:ℚ) ≤ 1.5 := by norm_num
    exact mul_nonneg hmean h15
  refine ⟨?_, ?_, ?_⟩
  · unfold updateLevel specLevelValue
    rw [max_eq_right hnn]
  · unfold updateLevel
    exact le_min (by norm_num) hnn
  · unfold updateLevel
    exact min_le_left _ _

/-- Witness for C8 at a concrete cycle of 128 bins all reading 10. -/
theorem claim_C8_witness :
    updateLevel (List.replicate 128 (10:ℚ)) = specLevelValue (List.replicate 128 (10:ℚ)) ∧
    0 ≤ updateLevel (List.replicate 128 (10:ℚ)) ∧
    updateLevel (List.replicate 128 (10:ℚ)) ≤ 100 :=
  claim_C8_level_meter_clamped (List.replicate 128 (10:ℚ))
    (by simp [frequencyBinCount])
    (by
      intro x hx
      rw [List.eq_of_mem_replicate hx]
      norm_num)
